import Mathlib

/-!
Shallow embedding of the tutorial repository (security3.py, request_body.py,
query_paramters.py) with proofs of the specified properties.

Python `Optional[T]` fields become `Option T`; Python truthiness on those
fields is modelled explicitly; handlers that can raise `HTTPException`
return `Except HTTPException α`.
-/

set_option autoImplicit false

namespace Security3

/-- Embeds the pydantic model `User` of security3.py:
`username: str`, `email: Optional[str] = None`, `full_name: Optional[str] = None`,
`disabled: Optional[bool] = None`. -/
structure User where
  username : String
  email : Option String := none
  full_name : Option String := none
  disabled : Option Bool := none
  deriving DecidableEq, Repr

/-- Embeds `UserInDB(User)` of security3.py: `User` plus `hashed_password: str`. -/
structure UserInDB extends User where
  hashed_password : String
  deriving DecidableEq, Repr

/-- Embeds `HTTPException(status_code, detail, headers)`; a raise with no
`headers` argument is modelled with the empty header list. -/
structure HTTPException where
  status_code : Nat
  detail : String
  headers : List (String × String) := []
  deriving DecidableEq, Repr

/-- Python truthiness of an `Optional[bool]` value: `None` and `False` are
falsy, `True` is truthy. -/
def truthyOptBool : Option Bool → Bool
  | none => false
  | some b => b

/-- The `"johndoe"` entry of `fake_users_db`. -/
def johndoe_record : UserInDB :=
  { username := "johndoe"
    full_name := some "John Doe"
    email := some "johndoe@example.com"
    hashed_password := "fakehashedsecret1"
    disabled := some false }

/-- The `"alice"` entry of `fake_users_db`. -/
def alice_record : UserInDB :=
  { username := "alice"
    full_name := some "Alice Wonderson"
    email := some "alice@example.com"
    hashed_password := "fakehashedsecret2"
    disabled := some true }

/-- Embeds the `fake_users_db` dictionary as an association list from
username keys to the stored records. -/
def fake_users_db : List (String × UserInDB) :=
  [("johndoe", johndoe_record), ("alice", alice_record)]

/-- Python dictionary key lookup (`db[username]` guarded by `username in db`,
or `db.get(username)`): first pair with matching key, else `none`. -/
def dbGet : List (String × UserInDB) → String → Option UserInDB
  | [], _ => none
  | (k, v) :: rest, name => if k == name then some v else dbGet rest name

/-- Embeds `fake_hash_password(password) = "fakehashed" + password`. -/
def fake_hash_password (password : String) : String :=
  "fakehashed" ++ password

/-- Embeds `get_user(db, username)`: if the username is a key of the db,
return the stored record (as `UserInDB`), otherwise `None`. -/
def get_user (db : List (String × UserInDB)) (username : String) : Option UserInDB :=
  dbGet db username

/-- Embeds `fake_decode_token(token)`: looks the token up in `fake_users_db`. -/
def fake_decode_token (token : String) : Option UserInDB :=
  get_user fake_users_db token

/-- Embeds `get_current_user(token)`: decode the token; if no user results,
raise 401 "Invalid authentication credentials" with a
`WWW-Authenticate: Bearer` header, else return the user. -/
def get_current_user (token : String) : Except HTTPException UserInDB :=
  match fake_decode_token token with
  | some user => Except.ok user
  | none => Except.error
      { status_code := 401
        detail := "Invalid authentication credentials"
        headers := [("WWW-Authenticate", "Bearer")] }

/-- Embeds the body of `get_current_active_user(current_user)`:
`if current_user.disabled: raise HTTPException(400, "Inactive user")`,
else return the user unchanged. -/
def get_current_active_user (current_user : UserInDB) : Except HTTPException UserInDB :=
  if truthyOptBool current_user.disabled then
    Except.error { status_code := 400, detail := "Inactive user" }
  else
    Except.ok current_user

/-- The dependency chain behind `GET /users/me`: `get_current_user` then
`get_current_active_user`; `read_users_me` returns the resulting user object
unchanged. -/
def read_users_me (token : String) : Except HTTPException UserInDB :=
  match get_current_user token with
  | Except.error e => Except.error e
  | Except.ok u => get_current_active_user u

/-- The JSON body returned by the `POST /token` endpoint on success. -/
structure TokenResponse where
  access_token : String
  token_type : String
  deriving DecidableEq, Repr

/-- Embeds `login(form_data)`: look up the username (`400` "Incorrect username
or password" if absent), hash the submitted password with
`fake_hash_password` and compare to the stored `hashed_password` (`400` on
mismatch), else return `{"access_token": user.username, "token_type": "bearer"}`. -/
def login (username password : String) : Except HTTPException TokenResponse :=
  match dbGet fake_users_db username with
  | none => Except.error { status_code := 400, detail := "Incorrect username or password" }
  | some user =>
    let hashed_password := fake_hash_password password
    if hashed_password == user.hashed_password then
      Except.ok { access_token := user.username, token_type := "bearer" }
    else
      Except.error { status_code := 400, detail := "Incorrect username or password" }

/-- A JSON scalar value as produced by serializing the pydantic models here. -/
inductive JsonVal where
  | str (s : String)
  | boolean (b : Bool)
  | null
  deriving DecidableEq, Repr

/-- Serialization of an `Optional[str]` field. -/
def jsonOfOptStr : Option String → JsonVal
  | none => JsonVal.null
  | some s => JsonVal.str s

/-- Serialization of an `Optional[bool]` field. -/
def jsonOfOptBool : Option Bool → JsonVal
  | none => JsonVal.null
  | some b => JsonVal.boolean b

/-- The JSON object produced when a `UserInDB` instance is returned from a
route without a response model: all model fields are serialized, in pydantic
field-declaration order (parent-class fields first). -/
def userInDB_dict (u : UserInDB) : List (String × JsonVal) :=
  [("username", JsonVal.str u.username),
   ("email", jsonOfOptStr u.email),
   ("full_name", jsonOfOptStr u.full_name),
   ("disabled", jsonOfOptBool u.disabled),
   ("hashed_password", JsonVal.str u.hashed_password)]

theorem dbGet_fake_cases (u : String) (r : UserInDB)
    (h : dbGet fake_users_db u = some r) :
    (u = "johndoe" ∧ r = johndoe_record) ∨ (u = "alice" ∧ r = alice_record) := by
  by_cases h1 : u = "johndoe"
  · subst h1
    simp [fake_users_db, dbGet] at h
    exact Or.inl ⟨rfl, h.symm⟩
  · by_cases h2 : u = "alice"
    · subst h2
      simp [fake_users_db, dbGet] at h
      exact Or.inr ⟨rfl, h.symm⟩
    · simp [fake_users_db, dbGet, Ne.symm h1, Ne.symm h2] at h

theorem username_of_dbGet (u : String) (r : UserInDB)
    (h : dbGet fake_users_db u = some r) : r.username = u := by
  rcases dbGet_fake_cases u r h with ⟨h1, h2⟩ | ⟨h1, h2⟩ <;> subst h1 <;> subst h2 <;> rfl

/-- C2: for every user stored in `fake_users_db`, `login` with the correct
password (one whose toy hash equals the stored `hashed_password`) returns
`{access_token: username, token_type: "bearer"}`, and `login` with any other
password fails with 400 "Incorrect username or password". -/
theorem login_password_check (username password : String) (user : UserInDB)
    (h : dbGet fake_users_db username = some user) :
    (fake_hash_password password = user.hashed_password →
      login username password =
        Except.ok { access_token := username, token_type := "bearer" }) ∧
    (fake_hash_password password ≠ user.hashed_password →
      login username password =
        Except.error { status_code := 400, detail := "Incorrect username or password" }) := by
  have hu : user.username = username := username_of_dbGet username user h
  constructor
  · intro heq
    simp [login, h, heq, hu]
  · intro hne
    simp [login, h, hne]

theorem login_password_check_witness :
    login "johndoe" "secret1" =
      Except.ok { access_token := "johndoe", token_type := "bearer" } ∧
    login "johndoe" "wrong" =
      Except.error { status_code := 400, detail := "Incorrect username or password" } :=
  ⟨(login_password_check "johndoe" "secret1" johndoe_record rfl).1 rfl,
   (login_password_check "johndoe" "wrong" johndoe_record rfl).2 (by decide)⟩

/-- C3: for every username not present in `fake_users_db` and every password,
`login` fails with HTTP 400 and detail "Incorrect username or password". -/
theorem login_unknown_username (username password : String)
    (h : dbGet fake_users_db username = none) :
    login username password =
      Except.error { status_code := 400, detail := "Incorrect username or password" } := by
  simp [login, h]

theorem login_unknown_username_witness :
    login "bob" "secret1" =
      Except.error { status_code := 400, detail := "Incorrect username or password" } :=
  login_unknown_username "bob" "secret1" rfl

/-- C4: for every token for which user resolution fails (the token is not a
key of `fake_users_db`), `get_current_user` — and hence the whole
`/users/me` dependency chain — fails with HTTP 401, detail
"Invalid authentication credentials", and a `WWW-Authenticate: Bearer`
header. -/
theorem unresolved_token_unauthorized (token : String)
    (h : fake_decode_token token = none) :
    get_current_user token =
      Except.error
        { status_code := 401
          detail := "Invalid authentication credentials"
          headers := [("WWW-Authenticate", "Bearer")] } ∧
    read_users_me token =
      Except.error
        { status_code := 401
          detail := "Invalid authentication credentials"
          headers := [("WWW-Authenticate", "Bearer")] } := by
  have h1 : get_current_user token =
      Except.error
        { status_code := 401
          detail := "Invalid authentication credentials"
          headers := [("WWW-Authenticate", "Bearer")] } := by
    simp [get_current_user, h]
  exact ⟨h1, by simp [read_users_me, h1]⟩

theorem unresolved_token_unauthorized_witness :
    read_users_me "bob" =
      Except.error
        { status_code := 401
          detail := "Invalid authentication credentials"
          headers := [("WWW-Authenticate", "Bearer")] } :=
  (unresolved_token_unauthorized "bob" rfl).2

/-- C5: the fixture user alice is stored with `disabled = true`, her token
resolves to her record, and the active-user gate behind `/users/me` always
fails with HTTP 400 "Inactive user" for it. -/
theorem alice_always_inactive :
    dbGet fake_users_db "alice" = some alice_record ∧
    alice_record.disabled = some true ∧
    get_current_active_user alice_record =
      Except.error { status_code := 400, detail := "Inactive user" } ∧
    read_users_me "alice" =
      Except.error { status_code := 400, detail := "Inactive user" } :=
  ⟨rfl, rfl, rfl, rfl⟩

/-- C6: round-trip — for every user stored in `fake_users_db`, decoding the
`access_token` returned by a successful `login` yields a record whose
`username` equals the username that was logged in with. -/
theorem login_resolve_round_trip (username password : String) (user : UserInDB)
    (h : dbGet fake_users_db username = some user)
    (hp : fake_hash_password password = user.hashed_password) :
    ∃ tok, login username password = Except.ok tok ∧
      ∃ u2, fake_decode_token tok.access_token = some u2 ∧ u2.username = username := by
  have hu : user.username = username := username_of_dbGet username user h
  refine ⟨{ access_token := username, token_type := "bearer" }, ?_, user, ?_, hu⟩
  · simp [login, h, hp, hu]
  · simpa [fake_decode_token, get_user] using h

theorem login_resolve_round_trip_witness :
    ∃ tok, login "johndoe" "secret1" = Except.ok tok ∧
      ∃ u2, fake_decode_token tok.access_token = some u2 ∧ u2.username = "johndoe" :=
  login_resolve_round_trip "johndoe" "secret1" johndoe_record rfl rfl

/-- C8: the active-user gate raises 400 "Inactive user" iff the resolved
user's `disabled` field is truthy (i.e. equals `some true`); in particular a
user whose `disabled` field is unset (`none`) passes the gate unchanged. -/
theorem active_gate_iff_disabled (u : UserInDB) :
    (get_current_active_user u =
        Except.error { status_code := 400, detail := "Inactive user" } ↔
      u.disabled = some true) ∧
    (u.disabled = none → get_current_active_user u = Except.ok u) := by
  constructor
  · unfold get_current_active_user
    match hd : u.disabled with
    | none => simp [truthyOptBool, hd]
    | some true => simp [truthyOptBool, hd]
    | some false => simp [truthyOptBool, hd]
  · intro hd
    simp [get_current_active_user, truthyOptBool, hd]

theorem active_gate_iff_disabled_witness :
    get_current_active_user { username := "bob", hashed_password := "x" } =
      Except.ok { username := "bob", hashed_password := "x" } :=
  (active_gate_iff_disabled { username := "bob", hashed_password := "x" }).2 rfl

/-- C1 fails on the code: the token "johndoe" is valid (the `/users/me`
pipeline succeeds on it), yet the serialized response carries the
`hashed_password` field — nothing strips it, since the route has no response
model and the handler returns the `UserInDB` object itself. -/
theorem users_me_leaks_hashed_password :
    read_users_me "johndoe" = Except.ok johndoe_record ∧
    List.lookup "hashed_password" (userInDB_dict johndoe_record) =
      some (JsonVal.str "fakehashedsecret1") :=
  ⟨rfl, by decide⟩

/-- C1 amended: for every valid token (one on which the `/users/me` pipeline
succeeds), the serialized response carries exactly the `UserRecord` fields
plus `hashed_password` — the stored credential hash is present, not
stripped. -/
theorem users_me_response_fields (token : String) (u : UserInDB)
    (_h : read_users_me token = Except.ok u) :
    (userInDB_dict u).map Prod.fst =
      ["username", "email", "full_name", "disabled", "hashed_password"] ∧
    List.lookup "hashed_password" (userInDB_dict u) =
      some (JsonVal.str u.hashed_password) := by
  exact ⟨rfl, rfl⟩

theorem users_me_response_fields_witness :
    (userInDB_dict johndoe_record).map Prod.fst =
      ["username", "email", "full_name", "disabled", "hashed_password"] ∧
    List.lookup "hashed_password" (userInDB_dict johndoe_record) =
      some (JsonVal.str johndoe_record.hashed_password) :=
  users_me_response_fields "johndoe" johndoe_record rfl

/-- C7 fails on the code: a `User` constructed without an explicit `disabled`
value has `disabled = None` (the declared default), not `False`. -/
theorem user_default_disabled_not_false :
    ({ username := "bob" } : User).disabled = none ∧
    ({ username := "bob" } : User).disabled ≠ some false :=
  ⟨rfl, by decide⟩

/-- C7 amended: `disabled` is an optional boolean whose declared default is
`None` (unset), not `false`; a record constructed without an explicit value
has `disabled = None`, and the active-user gate treats such a record as
active. -/
theorem user_disabled_defaults_none (s hp : String) :
    ({ username := s } : User).disabled = none ∧
    ({ username := s, hashed_password := hp } : UserInDB).disabled = none ∧
    get_current_active_user { username := s, hashed_password := hp } =
      Except.ok { username := s, hashed_password := hp } := by
  exact ⟨rfl, rfl, rfl⟩

end Security3

namespace RequestBody

/-- Embeds the pydantic model `Item` of request_body.py:
`name: str`, `description: Optional[str] = None`, `price: float`,
`tax: Optional[float] = None`. Numeric fields are modelled as rationals:
no claim here depends on binary floating-point rounding. -/
structure Item where
  name : String
  description : Option String := none
  price : Rat
  tax : Option Rat := none
  deriving DecidableEq, Repr

/-- A JSON value appearing in the responses of request_body.py handlers. -/
inductive JVal where
  | str (s : String)
  | num (q : Rat)
  | null
  deriving DecidableEq, Repr

/-- Serialization of an `Optional[str]` field of `Item`. -/
def jvalOfOptStr : Option String → JVal
  | none => JVal.null
  | some s => JVal.str s

/-- Serialization of an `Optional[float]` field of `Item`. -/
def jvalOfOptRat : Option Rat → JVal
  | none => JVal.null
  | some q => JVal.num q

/-- Embeds `item.dict()`: all model fields in declaration order. -/
def item_dict (item : Item) : List (String × JVal) :=
  [("name", JVal.str item.name),
   ("description", jvalOfOptStr item.description),
   ("price", JVal.num item.price),
   ("tax", jvalOfOptRat item.tax)]

/-- Python truthiness of the `Optional[float]` field `tax`: `None` and `0`
are falsy, any other number is truthy. -/
def ratTruthy : Option Rat → Bool
  | none => false
  | some q => q != 0

/-- Embeds the `POST /items2/` handler `create_item` of request_body.py:
start from `item.dict()`; `if item.tax:` add the key `price_with_tax` with
value `item.price + item.tax` (a fresh key, so `update` appends it). -/
def create_item (item : Item) : List (String × JVal) :=
  let d := item_dict item
  match item.tax with
  | some t =>
    if t != 0 then d ++ [("price_with_tax", JVal.num (item.price + t))] else d
  | none => d

/-- C9: the `/items2/` handler includes `price_with_tax` (with value
`item.price + item.tax`) iff `item.tax` is truthy; with `tax` equal to
`None` or exactly `0` the response is exactly `item.dict()`, which has no
`price_with_tax` key. -/
theorem create_item_price_with_tax (item : Item) :
    (∀ t : Rat, item.tax = some t → t ≠ 0 →
      create_item item =
        item_dict item ++ [("price_with_tax", JVal.num (item.price + t))]) ∧
    ((item.tax = none ∨ item.tax = some 0) → create_item item = item_dict item) ∧
    (List.lookup "price_with_tax" (item_dict item) = none) ∧
    ((List.lookup "price_with_tax" (create_item item)).isSome = ratTruthy item.tax) := by
  have hno : List.lookup "price_with_tax" (item_dict item) = none := by
    simp [item_dict, List.lookup]
  refine ⟨?_, ?_, hno, ?_⟩
  · intro t ht hne
    simp [create_item, ht, hne]
  · rintro (ht | ht) <;> simp [create_item, ht]
  · match ht : item.tax with
    | none => simp [create_item, ht, ratTruthy, hno]
    | some t =>
      by_cases h0 : t = 0
      · subst h0
        simp [create_item, ht, ratTruthy, hno]
      · simp [create_item, ht, ratTruthy, h0, hno, List.lookup_append]

theorem create_item_price_with_tax_witness :
    create_item { name := "Foo", price := 2, tax := some 3 } =
      item_dict { name := "Foo", price := 2, tax := some 3 } ++
        [("price_with_tax", JVal.num 5)] ∧
    create_item { name := "Foo", price := 2 } =
      item_dict { name := "Foo", price := 2 } :=
  ⟨by
    have h := (create_item_price_with_tax { name := "Foo", price := 2, tax := some 3 }).1
      3 rfl (by norm_num)
    norm_num at h
    exact h,
   (create_item_price_with_tax { name := "Foo", price := 2 }).2.1 (Or.inl rfl)⟩

end RequestBody

namespace QueryParams

/-- One element of the `fake_items_db` fixture of query_paramters.py: a
dictionary with the single key `item_name`. -/
structure DbItem where
  item_name : String
  deriving DecidableEq, Repr

/-- Embeds the 3-element fixture list `fake_items_db`. -/
def fake_items_db : List DbItem :=
  [{ item_name := "Foo" }, { item_name := "Bar" }, { item_name := "Baz" }]

/-- Normalization of one Python slice bound for a list of length `n`:
a negative index counts from the end and clamps at 0, a non-negative index
clamps at `n`. -/
def sliceBound (n : Nat) (i : Int) : Nat :=
  if i < 0 then (i + n).toNat else min i.toNat n

/-- Python list slicing `xs[a : b]` (step 1): take the elements between the
normalized bounds; empty when the normalized stop does not exceed the
normalized start. Total for all integer bounds. -/
def pySlice (xs : List DbItem) (a b : Int) : List DbItem :=
  let s := sliceBound xs.length a
  let e := sliceBound xs.length b
  (xs.drop s).take (e - s)

/-- Embeds the `GET /items2/` handler `read_item(skip, limit)` of
query_paramters.py: returns `fake_items_db[skip : skip + limit]`. -/
def read_item (skip limit : Int) : List DbItem :=
  pySlice fake_items_db skip (skip + limit)

/-- C10: `read_item` is total over all integer `skip` and `limit` and only
ever returns elements of the fixture (no out-of-range error); for `skip ≥ 3`
with non-negative `limit` the result is empty; and with both parameters
non-negative at most `limit` items are returned. -/
theorem read_item_total_safe (skip limit : Int) :
    (read_item skip limit).Sublist fake_items_db ∧
    (3 ≤ skip → 0 ≤ limit → read_item skip limit = []) ∧
    (0 ≤ skip → 0 ≤ limit → ((read_item skip limit).length : Int) ≤ limit) := by
  refine ⟨?_, ?_, ?_⟩
  · exact ((List.take_sublist _ _).trans (List.drop_sublist _ _))
  · intro hs hl
    have h0 : (read_item skip limit).length = 0 := by
      simp only [read_item, pySlice, sliceBound, fake_items_db,
        List.length_take, List.length_drop, List.length_cons, List.length_nil]
      rw [if_neg (by omega), if_neg (by omega)]
      omega
    exact List.length_eq_zero.mp h0
  · intro hs hl
    simp only [read_item, pySlice, sliceBound, fake_items_db]
    rw [if_neg (by omega), if_neg (by omega)]
    simp only [List.length_take, List.length_drop]
    omega

theorem read_item_total_safe_witness :
    read_item 5 2 = [] ∧ ((read_item 1 10).length : Int) ≤ 10 :=
  ⟨(read_item_total_safe 5 2).2.1 (by norm_num) (by norm_num),
   (read_item_total_safe 1 10).2.2 (by norm_num) (by norm_num)⟩

end QueryParams
